import Mathlib

/-!
# Slot assignment (WebCore/dom/SlotAssignment.h)

A shallow embedding of the declarations and inline functions of
`Source/WebCore/dom/SlotAssignment.h`:

* the per-name `Slot` record and its three inline predicates,
* `SlotAssignment::defaultSlotName`,
* the six inline `ShadowRoot` hooks that forward to the slot assignment,
* the out-of-line registry operations (declared in the header, defined in a
  translation unit that is not part of the sources at hand), modelled from the
  prose specification.

Pointers to nodes and elements are natural numbers (identity only).
-/

namespace WebCore

/-! ## Collaborator types -/

/-- Modelled from the spec: `AtomicString` (wtf/text/AtomicString.h) is not among the
sources. Names are opaque case-sensitive strings; an atomic string is either the null
string or an interned string, so it is an optional string. -/
abbrev AtomicString := Option String

/-- Modelled from the spec: `nullAtom()` (wtf/text/AtomicString.h), the null atomic
string. -/
def nullAtom : AtomicString := none

/-- Modelled from the spec: `emptyAtom()` (wtf/text/AtomicString.h), the atom of the empty
string; the spec says the empty string denotes the default slot. -/
def emptyAtom : AtomicString := some ""

/-- Identity of a `Node` (a `Node*`). -/
abbrev Node := Nat

/-- Identity of an `Element` (an `Element&`). -/
abbrev Element := Nat

/-- Identity of an `HTMLSlotElement` (an `HTMLSlotElement*`). -/
abbrev HTMLSlotElement := Nat

/-- Modelled from the spec: `WeakPtr<T>` (wtf/WeakPtr.h) is not among the sources. A weak
reference is an optional handle that the owner of the target invalidates on destruction:
it is null (never set or cleared), points to a live target, or its target is gone. -/
inductive WeakPtr (α : Type) where
  | null : WeakPtr α
  | live (target : α) : WeakPtr α
  | revoked : WeakPtr α
  deriving DecidableEq, Repr

/-- Dereference of a weak pointer (`WeakPtr::get`): the target when it is still alive. -/
def WeakPtr.get {α : Type} : WeakPtr α → Option α
  | .null => none
  | .live p => some p
  | .revoked => none

/-- The C++ `operator!` of a weak pointer: true when `get()` is the null pointer. -/
def WeakPtr.not {α : Type} (w : WeakPtr α) : Bool := w.get.isNone

/-! ## `SlotAssignment::Slot` (header lines 68-82) -/

/-- The record `SlotAssignment::Slot`; the default values are those of the member
initialisers. `elementCount` is an `unsigned`; the inline predicates only compare it with
0 and 1, so its width plays no role in them. -/
structure Slot where
  element : WeakPtr HTMLSlotElement := WeakPtr.null
  oldElement : WeakPtr HTMLSlotElement := WeakPtr.null
  elementCount : Nat := 0
  seenFirstElement : Bool := false
  assignedNodes : List Node := []
  deriving DecidableEq, Repr

/-- `bool hasSlotElements() { return !!elementCount; }` -/
def Slot.hasSlotElements (s : Slot) : Bool := !(!(s.elementCount != 0))

/-- `bool hasDuplicatedSlotElements() { return elementCount > 1; }` -/
def Slot.hasDuplicatedSlotElements (s : Slot) : Bool := decide (s.elementCount > 1)

/-- `bool shouldResolveSlotElement() { return !element && elementCount; }` -/
def Slot.shouldResolveSlotElement (s : Slot) : Bool := s.element.not && (s.elementCount != 0)

/-! ## `SlotAssignment::defaultSlotName` (header line 49) -/

/-- `static const AtomicString& defaultSlotName() { return emptyAtom(); }` -/
def defaultSlotName : AtomicString := emptyAtom

/-! ## The inline `ShadowRoot` hooks (header lines 109-146) -/

/-- One call made by a hook: a public member function of `SlotAssignment`, or
`RenderTreeUpdater::tearDownRenderers`. -/
inductive Call where
  | findAssignedSlot (node : Node)
  | renameSlotElement (slot : HTMLSlotElement) (oldName newName : AtomicString)
  | addSlotElementByName (name : AtomicString) (slot : HTMLSlotElement)
  | removeSlotElementByName (name : AtomicString) (slot : HTMLSlotElement)
  | slotFallbackDidChange (slot : HTMLSlotElement)
  | resolveSlotsBeforeNodeInsertionOrRemoval
  | willRemoveAllChildren
  | didChangeSlot (name : AtomicString)
  | enqueueSlotChangeEvent (name : AtomicString)
  | assignedNodesForSlot (slot : HTMLSlotElement)
  | hostChildElementDidChange (child : Element)
  | tearDownRenderers (element : Element)
  deriving DecidableEq, Repr

/-- Whether a call is a member function of `SlotAssignment` (everything except the render
tree teardown). -/
def Call.isSlotAssignmentOperation : Call → Bool
  | .tearDownRenderers _ => false
  | _ => true

/-- The member functions of `SlotAssignment` that the hooks call. The header only declares
them (one of them is virtual), so their effect on the slot assignment object is a
parameter of the embedding. Each also receives the shadow root by reference; the hooks
keep using the same `m_slotAssignment` pointer after a call, so the embedding tracks the
effect of a call on the object behind that pointer. -/
structure SlotAssignmentOps (σ : Type) where
  resolveSlotsBeforeNodeInsertionOrRemoval : σ → σ
  willRemoveAllChildren : σ → σ
  didChangeSlot : AtomicString → σ → σ
  hostChildElementDidChange : Element → σ → σ

/-- The part of a `ShadowRoot` the hooks read: the owned slot assignment
(`std::unique_ptr<SlotAssignment> m_slotAssignment`, null when absent) and the value of
`shouldFireSlotchangeEvent()`, which is declared in ShadowRoot.h and taken as given. -/
structure ShadowRoot (σ : Type) where
  m_slotAssignment : Option σ
  shouldFireSlotchangeEvent : Bool

/-- The result of running a hook: the shadow root afterwards and the calls made, in
order. -/
structure Outcome (σ : Type) where
  root : ShadowRoot σ
  calls : List Call

/-- `ShadowRoot::resolveSlotsBeforeNodeInsertionOrRemoval` (lines 109-113). -/
def ShadowRoot.resolveSlotsBeforeNodeInsertionOrRemoval {σ : Type} (ops : SlotAssignmentOps σ)
    (r : ShadowRoot σ) : Outcome σ :=
  if r.shouldFireSlotchangeEvent then
    match r.m_slotAssignment with
    | some sa =>
      { root := { r with m_slotAssignment := some (ops.resolveSlotsBeforeNodeInsertionOrRemoval sa) },
        calls := [Call.resolveSlotsBeforeNodeInsertionOrRemoval] }
    | none => { root := r, calls := [] }
  else { root := r, calls := [] }

/-- `ShadowRoot::willRemoveAllChildren(ContainerNode&)` (lines 115-119). -/
def ShadowRoot.willRemoveAllChildren {σ : Type} (ops : SlotAssignmentOps σ)
    (r : ShadowRoot σ) : Outcome σ :=
  if r.shouldFireSlotchangeEvent then
    match r.m_slotAssignment with
    | some sa =>
      { root := { r with m_slotAssignment := some (ops.willRemoveAllChildren sa) },
        calls := [Call.willRemoveAllChildren] }
    | none => { root := r, calls := [] }
  else { root := r, calls := [] }

/-- `ShadowRoot::didRemoveAllChildrenOfShadowHost` (lines 121-125). -/
def ShadowRoot.didRemoveAllChildrenOfShadowHost {σ : Type} (ops : SlotAssignmentOps σ)
    (r : ShadowRoot σ) : Outcome σ :=
  match r.m_slotAssignment with
  | some sa =>
    { root := { r with m_slotAssignment := some (ops.didChangeSlot nullAtom sa) },
      calls := [Call.didChangeSlot nullAtom] }
  | none => { root := r, calls := [] }

/-- `ShadowRoot::didChangeDefaultSlot` (lines 127-131). -/
def ShadowRoot.didChangeDefaultSlot {σ : Type} (ops : SlotAssignmentOps σ)
    (r : ShadowRoot σ) : Outcome σ :=
  match r.m_slotAssignment with
  | some sa =>
    { root := { r with m_slotAssignment := some (ops.didChangeSlot nullAtom sa) },
      calls := [Call.didChangeSlot nullAtom] }
  | none => { root := r, calls := [] }

/-- `ShadowRoot::hostChildElementDidChange(const Element&)` (lines 133-137). -/
def ShadowRoot.hostChildElementDidChange {σ : Type} (ops : SlotAssignmentOps σ)
    (r : ShadowRoot σ) (childElement : Element) : Outcome σ :=
  match r.m_slotAssignment with
  | some sa =>
    { root := { r with m_slotAssignment := some (ops.hostChildElementDidChange childElement sa) },
      calls := [Call.hostChildElementDidChange childElement] }
  | none => { root := r, calls := [] }

/-- `ShadowRoot::hostChildElementDidChangeSlotAttribute(Element&, oldValue, newValue)`
(lines 139-146): early return without a slot assignment, otherwise two `didChangeSlot`
calls followed by the renderer teardown. -/
def ShadowRoot.hostChildElementDidChangeSlotAttribute {σ : Type} (ops : SlotAssignmentOps σ)
    (r : ShadowRoot σ) (element : Element) (oldValue newValue : AtomicString) : Outcome σ :=
  match r.m_slotAssignment with
  | none => { root := r, calls := [] }
  | some sa =>
    let sa1 := ops.didChangeSlot oldValue sa
    let sa2 := ops.didChangeSlot newValue sa1
    { root := { r with m_slotAssignment := some sa2 },
      calls := [Call.didChangeSlot oldValue, Call.didChangeSlot newValue,
                Call.tearDownRenderers element] }

/-! ## The out-of-line registry operations

The header declares the members below; their bodies live in a translation unit that is not
among the sources. They are modelled from the prose specification (sections 3, 4.1, 4.2,
4.3, 4.4 and 6), over the data members that the header does give (lines 96-106). The bulk
removal fast path and the fallback-content hook of section 4.3 are not modelled. -/

/-- The data members of `SlotAssignment` (header lines 96-106). The hash map from names to
owned `Slot` records is a partial function; names are opaque keys. Counters are unbounded
naturals: the spec calls the versions monotonically increasing, and the number of
registered slot elements is bounded by the number of live elements. The spec has no
counterpart of `m_slotAssignmentsIsValid` (staleness is a comparison of the two versions),
so the modelled operations leave it alone, as they do `m_willBeRemovingAllChildren`. The
last field is modelled from the spec (the header has no member for it): the pending set
of the change coalescer of section 4.4, as a characteristic function. -/
structure SlotAssignment where
  m_slots : AtomicString → Option Slot := fun _ => none
  m_needsToResolveSlotElements : Bool := false
  m_slotAssignmentsIsValid : Bool := false
  m_willBeRemovingAllChildren : Bool := false
  m_slotMutationVersion : Nat := 0
  m_slotResolutionVersion : Nat := 0
  changedNames : AtomicString → Bool := fun _ => false

/-- Modelled from the spec: a slot element as found in the shadow tree (the DOM is not
among the sources): its identity and the current value of its name attribute. -/
structure SlotElementInTree where
  ptr : HTMLSlotElement
  name : AtomicString
  deriving DecidableEq, Repr

/-- Modelled from the spec: what the `ShadowRoot&` argument of the registry operations
gives access to (the DOM is not among the sources; collaborator contracts (a) and (c) of
section 6): the slot elements among the descendants of the shadow root in tree order, the
direct children of the host in tree order, and the name-derivation function
`slotNameForHostChild` (virtual, header line 88). -/
structure ShadowTreeView where
  slotElements : List SlotElementInTree
  hostChildren : List Node
  slotNameForHostChild : Node → AtomicString

namespace SlotAssignment

/-- Modelled from the spec: the freshly constructed registry (`SlotAssignment()`), with no
record, clear flags and both version counters at zero. -/
def init : SlotAssignment := {}

/-- Modelled from the spec: `lookup(name)` of section 4.1, which creates the record on
demand; reading an absent record gives the default-constructed `Slot`. -/
def lookup (sa : SlotAssignment) (name : AtomicString) : Slot :=
  (sa.m_slots name).getD {}

/-- Store a record under a name. -/
def setSlot (sa : SlotAssignment) (name : AtomicString) (slot : Slot) : SlotAssignment :=
  { sa with m_slots := Function.update sa.m_slots name (some slot) }

/-- Modelled from the spec: the canonical element of a name, a weak reference that is gone
counting as unset (section 5). -/
def canonicalElement (sa : SlotAssignment) (name : AtomicString) : Option HTMLSlotElement :=
  (sa.lookup name).element.get

/-- Modelled from the spec: `candidateCount(name)`, zero for a name without a record. -/
def candidateCount (sa : SlotAssignment) (name : AtomicString) : Nat :=
  (sa.lookup name).elementCount

/-- Modelled from the spec: every mutation entry point increments `mutationVersion`
exactly once per call (section 4.3). -/
def bumpMutationVersion (sa : SlotAssignment) : SlotAssignment :=
  { sa with m_slotMutationVersion := sa.m_slotMutationVersion + 1 }

/-- Modelled from the spec: `markNameChanged` of section 4.4, adding a name to the pending
set of the coalescer. -/
def markNameChanged (name : AtomicString) (sa : SlotAssignment) : SlotAssignment :=
  { sa with changedNames := Function.update sa.changedNames name true }

/-- Modelled from the spec: `drainChangedNames()` of section 4.4, returning the pending set
and clearing it. -/
def drainChangedNames (sa : SlotAssignment) : (AtomicString → Bool) × SlotAssignment :=
  (sa.changedNames, { sa with changedNames := fun _ => false })

/-- Modelled from the spec: the record update of `register(name, element)` (section 4.1).
It increments the candidate count; the first candidate for the name becomes canonical
immediately (and the record has then seen a first element); otherwise the name is
duplicated and `needsElementResolution` is set. -/
def registerRecord (name : AtomicString) (slotElement : HTMLSlotElement)
    (sa : SlotAssignment) : SlotAssignment :=
  let slot := sa.lookup name
  if slot.elementCount = 0 then
    sa.setSlot name { slot with elementCount := slot.elementCount + 1,
                                element := WeakPtr.live slotElement,
                                seenFirstElement := true }
  else
    { sa.setSlot name { slot with elementCount := slot.elementCount + 1 } with
      m_needsToResolveSlotElements := true }

/-- Modelled from the spec: the record update of `unregister(name, element)` (section
4.1). It decrements the candidate count; if the removed element was canonical it clears
the canonical reference and sets `needsElementResolution`. A name without candidates is
left alone (section 7: unregistering what is not registered is a no-op). -/
def unregisterRecord (name : AtomicString) (slotElement : HTMLSlotElement)
    (sa : SlotAssignment) : SlotAssignment :=
  match sa.m_slots name with
  | none => sa
  | some slot =>
    if slot.elementCount = 0 then sa
    else if slot.element.get = some slotElement then
      { sa.setSlot name { slot with elementCount := slot.elementCount - 1,
                                    element := WeakPtr.null } with
        m_needsToResolveSlotElements := true }
    else
      sa.setSlot name { slot with elementCount := slot.elementCount - 1 }

/-- Modelled from the spec: `addSlotElementByName` (header line 54), the mutation entry
point `registerSlotElement(name, element)` of section 6. -/
def addSlotElementByName (name : AtomicString) (slotElement : HTMLSlotElement)
    (sa : SlotAssignment) : SlotAssignment :=
  bumpMutationVersion (registerRecord name slotElement sa)

/-- Modelled from the spec: `removeSlotElementByName` (header line 55), the mutation entry
point `unregisterSlotElement(name, element, formerParent)` of section 6; the former parent
is only used for cleanup outside the registry. -/
def removeSlotElementByName (name : AtomicString) (slotElement : HTMLSlotElement)
    (sa : SlotAssignment) : SlotAssignment :=
  if sa.candidateCount name = 0 then sa
  else bumpMutationVersion (unregisterRecord name slotElement sa)

/-- Modelled from the spec: `renameSlotElement` (header line 53). Section 4.1:
`rename(oldName, newName, element)` is `unregister(oldName, element)` followed by
`register(newName, element)`, plus marking both old and new names as changed. -/
def renameSlotElement (slotElement : HTMLSlotElement) (oldName newName : AtomicString)
    (sa : SlotAssignment) : SlotAssignment :=
  bumpMutationVersion
    (markNameChanged newName
      (markNameChanged oldName
        (registerRecord newName slotElement (unregisterRecord oldName slotElement sa))))

/-- Modelled from the spec: `hostChildElementDidChange` of the registry (header line 65),
`onHostChildDidChange(element)` of section 4.3: it invalidates the assignment by bumping
`mutationVersion`. -/
def hostChildElementDidChange (_child : Element) (sa : SlotAssignment) : SlotAssignment :=
  bumpMutationVersion sa

/-- Modelled from the spec: `didChangeSlot` of the registry (header line 60). Section 4.3
has the caller notify the name bucket of a changed slot name through `markNameChanged`:
the name joins the pending set of the coalescer. The spec gives this notification no
other effect on the registry. -/
def didChangeSlot (name : AtomicString) (sa : SlotAssignment) : SlotAssignment :=
  markNameChanged name sa

/-- Modelled from the spec: one step of `resolveCanonicalElements()` (section 4.2). For a
slot element met in the traversal, if the record of its name has no canonical element
yet, the element becomes canonical and the record is marked as having seen its first
element. A name without a record has no candidate and is skipped. -/
def resolveSlotElement (sa : SlotAssignment) (e : SlotElementInTree) : SlotAssignment :=
  match sa.m_slots e.name with
  | none => sa
  | some slot =>
    if slot.element.get = none then
      sa.setSlot e.name { slot with element := WeakPtr.live e.ptr, seenFirstElement := true }
    else sa

/-- Modelled from the spec: the start of a recomputation of canonical elements. Section
4.1 has the canonical identity of a duplicated name recomputed lazily, as the first in
tree order and not in registration order, so every record first forgets the canonical
element it holds. -/
def clearCanonicalElements (sa : SlotAssignment) : SlotAssignment :=
  { sa with
    m_slots := fun n => (sa.m_slots n).map fun slot => { slot with element := WeakPtr.null } }

/-- Modelled from the spec: `resolveAllSlotElements` (header line 91),
`resolveCanonicalElements()` of section 4.2: the canonical elements are recomputed by a
tree-order pass over the slot elements of the shadow tree, in which the first slot
element of each name wins; afterwards canonical elements are no longer stale. -/
def resolveAllSlotElements (view : ShadowTreeView) (sa : SlotAssignment) : SlotAssignment :=
  { view.slotElements.foldl resolveSlotElement (clearCanonicalElements sa) with
    m_needsToResolveSlotElements := false }

/-- Modelled from the spec: `assignToSlot` (header line 94), the body of the loop of
`assign()` in section 4.2. The child is appended to the list of its name if a canonical
element exists for the name; the default name is always considered to exist. -/
def assignToSlot (sa : SlotAssignment) (child : Node) (slotName : AtomicString) :
    SlotAssignment :=
  if slotName = defaultSlotName then
    let slot := sa.lookup slotName
    sa.setSlot slotName { slot with assignedNodes := slot.assignedNodes ++ [child] }
  else
    match sa.m_slots slotName with
    | none => sa
    | some slot =>
      if slot.element.get = none then sa
      else sa.setSlot slotName { slot with assignedNodes := slot.assignedNodes ++ [child] }

/-- Modelled from the spec: the first half of `assign()`: before assignment, the assigned
nodes of every record are cleared. -/
def clearAssignedNodes (sa : SlotAssignment) : SlotAssignment :=
  { sa with m_slots := fun n => (sa.m_slots n).map fun slot => { slot with assignedNodes := [] } }

/-- Modelled from the spec: `assignSlots` (header line 93), `assign()` of section 4.2.
Every list is cleared, the direct children of the host are visited in tree order, and
every name whose list differs from before is reported to the change coalescer. -/
def assignSlots (view : ShadowTreeView) (sa : SlotAssignment) : SlotAssignment :=
  let assigned := view.hostChildren.foldl
    (fun acc child => assignToSlot acc child (view.slotNameForHostChild child))
    (clearAssignedNodes sa)
  { assigned with
    changedNames := fun n =>
      sa.changedNames n || decide ((sa.lookup n).assignedNodes ≠ (assigned.lookup n).assignedNodes) }

/-- Modelled from the spec: the triggering rule of section 4.2. A read first checks
`resolvedVersion == mutationVersion`; if stale it runs `resolveCanonicalElements()` (only
if `needsElementResolution`), then `assign()`, then sets `resolvedVersion` to
`mutationVersion`. -/
def resolveIfStale (view : ShadowTreeView) (sa : SlotAssignment) : SlotAssignment :=
  if sa.m_slotResolutionVersion = sa.m_slotMutationVersion then sa
  else
    let resolved :=
      if sa.m_needsToResolveSlotElements then resolveAllSlotElements view sa else sa
    let assigned := assignSlots view resolved
    { assigned with m_slotResolutionVersion := assigned.m_slotMutationVersion }

/-- Modelled from the spec: `assignedNodesForSlot` (header line 63),
`queryAssignedNodes(slotElement)` of section 6: after resolving if stale, none if the
element is not currently canonical for its name, otherwise the assignment list of its
name. The second component is the registry after the read. -/
def assignedNodesForSlot (slotElement : SlotElementInTree) (view : ShadowTreeView)
    (sa : SlotAssignment) : Option (List Node) × SlotAssignment :=
  let sa1 := resolveIfStale view sa
  if sa1.canonicalElement slotElement.name = some slotElement.ptr then
    (some (sa1.lookup slotElement.name).assignedNodes, sa1)
  else (none, sa1)

/-- Modelled from the spec: `findAssignedSlot` (header line 51),
`queryAssignedSlotElement(node)` of section 6: after resolving if stale, the slot element
whose assigned nodes contain the node, if any. -/
def findAssignedSlot (node : Node) (view : ShadowTreeView) (sa : SlotAssignment) :
    Option HTMLSlotElement × SlotAssignment :=
  let sa1 := resolveIfStale view sa
  let slot := sa1.lookup (view.slotNameForHostChild node)
  if node ∈ slot.assignedNodes then (slot.element.get, sa1) else (none, sa1)

/-- The rename property as stated: renaming `E` from `a` to `b` takes one candidate from
the record of `a` and gives one to the record of `b`; if `E` was canonical for `a` the
canonical reference of `a` is cleared; and both names are in the next drained set. -/
def RenameTransfersBookkeeping (sa : SlotAssignment) (E : HTMLSlotElement)
    (a b : AtomicString) : Prop :=
  (renameSlotElement E a b sa).candidateCount a + 1 = sa.candidateCount a ∧
  (renameSlotElement E a b sa).candidateCount b = sa.candidateCount b + 1 ∧
  (sa.canonicalElement a = some E → (renameSlotElement E a b sa).canonicalElement a = none) ∧
  (drainChangedNames (renameSlotElement E a b sa)).1 a = true ∧
  (drainChangedNames (renameSlotElement E a b sa)).1 b = true

end SlotAssignment

end WebCore

/-! # Theorems -/

namespace WebCore

/-! ## The `Slot` predicates and the default slot name -/

/-- C6: `shouldResolveSlotElement()` holds exactly when the canonical element reference is
unset and `elementCount` is positive, where a weak reference whose target is gone counts
as unset: a record whose weak element is gone answers like the same record with a null
element, and a record with `elementCount == 0` never asks for resolution. -/
theorem C6_shouldResolveSlotElement_iff (s : Slot) :
    (s.shouldResolveSlotElement = true ↔ s.element.get = none ∧ 0 < s.elementCount) ∧
    Slot.shouldResolveSlotElement { s with element := WeakPtr.revoked } =
      Slot.shouldResolveSlotElement { s with element := WeakPtr.null } ∧
    (Slot.shouldResolveSlotElement { s with element := WeakPtr.revoked } = true ↔
      0 < s.elementCount) ∧
    Slot.shouldResolveSlotElement { s with elementCount := 0 } = false := by
  refine ⟨?_, rfl, ?_, ?_⟩
  · simp [Slot.shouldResolveSlotElement, WeakPtr.not, Option.isNone_iff_eq_none,
      Nat.pos_iff_ne_zero]
  · simp [Slot.shouldResolveSlotElement, WeakPtr.not, WeakPtr.get, Nat.pos_iff_ne_zero]
  · simp [Slot.shouldResolveSlotElement]

/-- C7: `hasDuplicatedSlotElements()` holds exactly when `elementCount > 1` and
`hasSlotElements()` exactly when `elementCount != 0`; both depend on `elementCount` only
(two records with the same count answer alike, whatever their canonical element), and a
duplicated name has slot elements. -/
theorem C7_hasSlotElements_hasDuplicatedSlotElements (s : Slot) :
    (s.hasDuplicatedSlotElements = true ↔ s.elementCount > 1) ∧
    (s.hasSlotElements = true ↔ s.elementCount ≠ 0) ∧
    (∀ t : Slot, t.elementCount = s.elementCount →
      t.hasDuplicatedSlotElements = s.hasDuplicatedSlotElements ∧
      t.hasSlotElements = s.hasSlotElements) ∧
    (s.hasDuplicatedSlotElements = true → s.hasSlotElements = true) := by
  refine ⟨?_, ?_, ?_, ?_⟩
  · simp [Slot.hasDuplicatedSlotElements]
  · simp [Slot.hasSlotElements]
  · intro t ht
    simp [Slot.hasDuplicatedSlotElements, Slot.hasSlotElements, ht]
  · simp only [Slot.hasDuplicatedSlotElements, Slot.hasSlotElements, decide_eq_true_eq]
    intro h
    have : s.elementCount ≠ 0 := by omega
    simp [this]

/-- C9: `defaultSlotName()` is the empty atom, that is the empty string (and not the null
atom); it takes no registry state, and in every registry the default slot is the record
keyed by the empty name. -/
theorem C9_defaultSlotName_is_empty :
    defaultSlotName = emptyAtom ∧ defaultSlotName = some "" ∧ defaultSlotName ≠ nullAtom ∧
    ∀ sa : SlotAssignment, sa.m_slots defaultSlotName = sa.m_slots (some "") := by
  refine ⟨rfl, rfl, ?_, fun _ => rfl⟩
  simp [defaultSlotName, emptyAtom, nullAtom]

/-! ## The inline `ShadowRoot` hooks -/

/-- C4: on a shadow root with a slot assignment, `hostChildElementDidChangeSlotAttribute`
calls `didChangeSlot` exactly twice, first with the old value and then with the new one
(also when the two are equal), then tears down the renderers of the element, and calls
no other `SlotAssignment` operation; the slot assignment afterwards is the result of the
two calls in that order. -/
theorem C4_hostChildElementDidChangeSlotAttribute_calls {σ : Type} (ops : SlotAssignmentOps σ)
    (sa : σ) (fires : Bool) (element : Element) (oldValue newValue : AtomicString) :
    (ShadowRoot.hostChildElementDidChangeSlotAttribute ops ⟨some sa, fires⟩ element
        oldValue newValue).calls
      = [Call.didChangeSlot oldValue, Call.didChangeSlot newValue,
         Call.tearDownRenderers element] ∧
    ((ShadowRoot.hostChildElementDidChangeSlotAttribute ops ⟨some sa, fires⟩ element
        oldValue newValue).calls.filter Call.isSlotAssignmentOperation)
      = [Call.didChangeSlot oldValue, Call.didChangeSlot newValue] ∧
    (ShadowRoot.hostChildElementDidChangeSlotAttribute ops ⟨some sa, fires⟩ element
        oldValue oldValue).calls
      = [Call.didChangeSlot oldValue, Call.didChangeSlot oldValue,
         Call.tearDownRenderers element] ∧
    (ShadowRoot.hostChildElementDidChangeSlotAttribute ops ⟨some sa, fires⟩ element
        oldValue newValue).root
      = ⟨some (ops.didChangeSlot newValue (ops.didChangeSlot oldValue sa)), fires⟩ := by
  refine ⟨rfl, ?_, rfl, rfl⟩
  simp [ShadowRoot.hostChildElementDidChangeSlotAttribute, Call.isSlotAssignmentOperation]

/-- C5: `resolveSlotsBeforeNodeInsertionOrRemoval` and `willRemoveAllChildren` each call
the `SlotAssignment` operation of the same name exactly once if and only if
`shouldFireSlotchangeEvent()` is true and a slot assignment exists, and call nothing
otherwise; when `shouldFireSlotchangeEvent()` is false they call nothing and leave the
shadow root and its slot assignment unchanged, even if a slot assignment exists. -/
theorem C5_gated_hooks {σ : Type} (ops : SlotAssignmentOps σ) (r : ShadowRoot σ) :
    ((r.resolveSlotsBeforeNodeInsertionOrRemoval ops).calls
        = [Call.resolveSlotsBeforeNodeInsertionOrRemoval] ↔
      r.shouldFireSlotchangeEvent = true ∧ r.m_slotAssignment.isSome = true) ∧
    ((r.resolveSlotsBeforeNodeInsertionOrRemoval ops).calls = [] ↔
      ¬ (r.shouldFireSlotchangeEvent = true ∧ r.m_slotAssignment.isSome = true)) ∧
    ((r.willRemoveAllChildren ops).calls = [Call.willRemoveAllChildren] ↔
      r.shouldFireSlotchangeEvent = true ∧ r.m_slotAssignment.isSome = true) ∧
    ((r.willRemoveAllChildren ops).calls = [] ↔
      ¬ (r.shouldFireSlotchangeEvent = true ∧ r.m_slotAssignment.isSome = true)) ∧
    (∀ sa : σ,
      (ShadowRoot.resolveSlotsBeforeNodeInsertionOrRemoval ops ⟨some sa, true⟩).root
        = ⟨some (ops.resolveSlotsBeforeNodeInsertionOrRemoval sa), true⟩ ∧
      (ShadowRoot.willRemoveAllChildren ops ⟨some sa, true⟩).root
        = ⟨some (ops.willRemoveAllChildren sa), true⟩) ∧
    (∀ sa : Option σ,
      (ShadowRoot.resolveSlotsBeforeNodeInsertionOrRemoval ops ⟨sa, false⟩).calls = [] ∧
      (ShadowRoot.resolveSlotsBeforeNodeInsertionOrRemoval ops ⟨sa, false⟩).root = ⟨sa, false⟩ ∧
      (ShadowRoot.willRemoveAllChildren ops ⟨sa, false⟩).calls = [] ∧
      (ShadowRoot.willRemoveAllChildren ops ⟨sa, false⟩).root = ⟨sa, false⟩) := by
  obtain ⟨sa, fires⟩ := r
  refine ⟨?_, ?_, ?_, ?_, fun _ => ⟨rfl, rfl⟩, fun _ => ⟨rfl, rfl, rfl, rfl⟩⟩ <;>
    cases fires <;> cases sa <;>
    simp [ShadowRoot.resolveSlotsBeforeNodeInsertionOrRemoval, ShadowRoot.willRemoveAllChildren]

/-- C8: on a shadow root without a slot assignment, each of the six inline hooks calls
nothing (no `SlotAssignment` operation and no renderer teardown) and leaves the shadow
root as it was, still without a slot assignment. -/
theorem C8_hooks_never_create_slot_assignment {σ : Type} (ops : SlotAssignmentOps σ)
    (fires : Bool) (element : Element) (oldValue newValue : AtomicString) :
    ShadowRoot.resolveSlotsBeforeNodeInsertionOrRemoval ops ⟨none, fires⟩
      = ⟨⟨none, fires⟩, []⟩ ∧
    ShadowRoot.willRemoveAllChildren ops ⟨none, fires⟩ = ⟨⟨none, fires⟩, []⟩ ∧
    ShadowRoot.didRemoveAllChildrenOfShadowHost ops ⟨none, fires⟩ = ⟨⟨none, fires⟩, []⟩ ∧
    ShadowRoot.didChangeDefaultSlot ops ⟨none, fires⟩ = ⟨⟨none, fires⟩, []⟩ ∧
    ShadowRoot.hostChildElementDidChange ops ⟨none, fires⟩ element = ⟨⟨none, fires⟩, []⟩ ∧
    ShadowRoot.hostChildElementDidChangeSlotAttribute ops ⟨none, fires⟩ element oldValue newValue
      = ⟨⟨none, fires⟩, []⟩ := by
  refine ⟨?_, ?_, rfl, rfl, rfl, rfl⟩ <;> cases fires <;> rfl

/-- C10: on a shadow root with a slot assignment, `didRemoveAllChildrenOfShadowHost` and
`didChangeDefaultSlot` each call `didChangeSlot` exactly once, with the null atom as the
name, whatever `shouldFireSlotchangeEvent()` says; and the two hooks have the same
outcome on every shadow root. -/
theorem C10_ungated_hooks_didChangeSlot_nullAtom {σ : Type} (ops : SlotAssignmentOps σ)
    (sa : σ) (fires : Bool) :
    ShadowRoot.didRemoveAllChildrenOfShadowHost ops ⟨some sa, fires⟩
      = ⟨⟨some (ops.didChangeSlot nullAtom sa), fires⟩, [Call.didChangeSlot nullAtom]⟩ ∧
    ShadowRoot.didChangeDefaultSlot ops ⟨some sa, fires⟩
      = ⟨⟨some (ops.didChangeSlot nullAtom sa), fires⟩, [Call.didChangeSlot nullAtom]⟩ ∧
    (ShadowRoot.resolveSlotsBeforeNodeInsertionOrRemoval ops ⟨some sa, false⟩).calls = [] ∧
    (ShadowRoot.willRemoveAllChildren ops ⟨some sa, false⟩).calls = [] ∧
    ∀ r : ShadowRoot σ,
      r.didRemoveAllChildrenOfShadowHost ops = r.didChangeDefaultSlot ops := by
  exact ⟨rfl, rfl, rfl, rfl, fun _ => rfl⟩

end WebCore

namespace WebCore

namespace SlotAssignment

/-! ## The registry operations: reading a record after an update -/

@[simp]
theorem lookup_setSlot_self (sa : SlotAssignment) (n : AtomicString) (slot : Slot) :
    (sa.setSlot n slot).lookup n = slot := by
  simp [lookup, setSlot]

@[simp]
theorem lookup_setSlot_of_ne (sa : SlotAssignment) {n m : AtomicString} (slot : Slot)
    (h : m ≠ n) : (sa.setSlot n slot).lookup m = sa.lookup m := by
  simp [lookup, setSlot, Function.update_noteq h]

theorem lookup_of_m_slots {sa : SlotAssignment} {n : AtomicString} {slot : Slot}
    (h : sa.m_slots n = some slot) : sa.lookup n = slot := by
  simp [lookup, h]

theorem m_slots_isSome_of_candidateCount_pos {sa : SlotAssignment} {n : AtomicString}
    (h : 0 < sa.candidateCount n) : ∃ slot, sa.m_slots n = some slot ∧ 0 < slot.elementCount := by
  unfold candidateCount lookup at h
  cases hs : sa.m_slots n with
  | none => simp [hs] at h
  | some slot => exact ⟨slot, rfl, by simpa [hs] using h⟩

/-- Registering under `n` reads back as: one more candidate, and the new element is
canonical exactly when it is the first candidate. -/
theorem lookup_registerRecord_self (n : AtomicString) (E : HTMLSlotElement) (sa : SlotAssignment) :
    (registerRecord n E sa).lookup n =
      if (sa.lookup n).elementCount = 0 then
        { sa.lookup n with elementCount := (sa.lookup n).elementCount + 1,
                           element := WeakPtr.live E, seenFirstElement := true }
      else { sa.lookup n with elementCount := (sa.lookup n).elementCount + 1 } := by
  unfold registerRecord
  by_cases h : (sa.lookup n).elementCount = 0
  · simp [h]
  · simp only [h, if_false]
    simp [lookup, setSlot]

theorem lookup_registerRecord_of_ne {n m : AtomicString} (E : HTMLSlotElement)
    (sa : SlotAssignment) (h : m ≠ n) : (registerRecord n E sa).lookup m = sa.lookup m := by
  unfold registerRecord
  by_cases h0 : (sa.lookup n).elementCount = 0
  · simp [h0, h]
  · simp only [h0, if_false]
    simp [lookup, setSlot, Function.update_noteq h]

theorem lookup_unregisterRecord_of_ne {n m : AtomicString} (E : HTMLSlotElement)
    (sa : SlotAssignment) (h : m ≠ n) : (unregisterRecord n E sa).lookup m = sa.lookup m := by
  unfold unregisterRecord
  split
  · rfl
  · split_ifs <;> simp [lookup, setSlot, Function.update_noteq h]

/-- Unregistering under a name with candidates reads back as: one candidate fewer, and
the canonical reference cleared when the removed element was canonical. -/
theorem lookup_unregisterRecord_self (n : AtomicString) (E : HTMLSlotElement)
    (sa : SlotAssignment) (h : 0 < sa.candidateCount n) :
    (unregisterRecord n E sa).lookup n =
      if (sa.lookup n).element.get = some E then
        { sa.lookup n with elementCount := (sa.lookup n).elementCount - 1,
                           element := WeakPtr.null }
      else { sa.lookup n with elementCount := (sa.lookup n).elementCount - 1 } := by
  obtain ⟨slot, hs, hpos⟩ := m_slots_isSome_of_candidateCount_pos h
  have hl : sa.lookup n = slot := lookup_of_m_slots hs
  unfold unregisterRecord
  simp only [hs, hl]
  have h0 : slot.elementCount ≠ 0 := by omega
  simp only [h0, if_false]
  split_ifs <;> simp [lookup, setSlot]

@[simp]
theorem lookup_bumpMutationVersion (sa : SlotAssignment) (n : AtomicString) :
    (bumpMutationVersion sa).lookup n = sa.lookup n := rfl

@[simp]
theorem lookup_markNameChanged (sa : SlotAssignment) (m n : AtomicString) :
    (markNameChanged m sa).lookup n = sa.lookup n := rfl


/-! ## Rename -/

/-- C3, the claim as stated fails when the new name equals the old one: renaming the only
slot element of `"a"` to `"a"` leaves the count at one and leaves that element canonical,
so the count of `"a"` does not drop and its canonical reference is not cleared. -/
theorem C3_rename_same_name_counterexample :
    ¬ RenameTransfersBookkeeping (addSlotElementByName (some "a") 7 init) 7 (some "a") (some "a") ∧
    (addSlotElementByName (some "a") 7 init).canonicalElement (some "a") = some 7 ∧
    (renameSlotElement 7 (some "a") (some "a")
      (addSlotElementByName (some "a") 7 init)).canonicalElement (some "a") = some 7 ∧
    (renameSlotElement 7 (some "a") (some "a")
      (addSlotElementByName (some "a") 7 init)).candidateCount (some "a") = 1 := by
  refine ⟨?_, by decide, by decide, by decide⟩
  unfold RenameTransfersBookkeeping
  decide

/-- C3 (amended): for a slot element registered under `a` (the record of `a` has a
candidate) and a name `b` different from `a`, `renameSlotElement` takes one candidate
from the record of `a` and gives one to the record of `b`; if the element was canonical
for `a`, the canonical reference of `a` is cleared; and both names are in the next
drained set of changed names. When `b` is `a`, the count is unchanged and the name is
still reported as changed. -/
theorem C3_rename_transfers_bookkeeping (sa : SlotAssignment) (E : HTMLSlotElement)
    (a b : AtomicString) (hreg : 0 < sa.candidateCount a) (hab : a ≠ b) :
    RenameTransfersBookkeeping sa E a b ∧
    (renameSlotElement E a a sa).candidateCount a = sa.candidateCount a ∧
    (drainChangedNames (renameSlotElement E a a sa)).1 a = true := by
  have hba : b ≠ a := fun h => hab h.symm
  have hun := lookup_unregisterRecord_self a E sa hreg
  refine ⟨⟨?_, ?_, ?_, ?_, ?_⟩, ?_, ?_⟩
  · unfold candidateCount at hreg ⊢
    simp only [renameSlotElement, lookup_bumpMutationVersion, lookup_markNameChanged]
    rw [lookup_registerRecord_of_ne E _ hab, hun]
    split_ifs <;> simp <;> omega
  · unfold candidateCount
    simp only [renameSlotElement, lookup_bumpMutationVersion, lookup_markNameChanged]
    rw [lookup_registerRecord_self, lookup_unregisterRecord_of_ne E sa hba]
    split_ifs <;> simp_all
  · intro hc
    unfold canonicalElement at hc ⊢
    simp only [renameSlotElement, lookup_bumpMutationVersion, lookup_markNameChanged]
    rw [lookup_registerRecord_of_ne E _ hab, hun, if_pos hc]
    rfl
  · simp [drainChangedNames, renameSlotElement, markNameChanged, bumpMutationVersion,
      Function.update_apply]
  · simp [drainChangedNames, renameSlotElement, markNameChanged, bumpMutationVersion]
  · unfold candidateCount at hreg ⊢
    simp only [renameSlotElement, lookup_bumpMutationVersion, lookup_markNameChanged]
    rw [lookup_registerRecord_self, hun]
    split_ifs <;> simp_all <;> omega
  · simp [drainChangedNames, renameSlotElement, markNameChanged, bumpMutationVersion]

/-- Witness for C3: the only slot element of `"a"` is renamed to `"b"`. -/
theorem C3_rename_transfers_bookkeeping_witness :
    RenameTransfersBookkeeping (addSlotElementByName (some "a") 7 init) 7 (some "a") (some "b") ∧
    (renameSlotElement 7 (some "a") (some "a")
      (addSlotElementByName (some "a") 7 init)).candidateCount (some "a")
      = (addSlotElementByName (some "a") 7 init).candidateCount (some "a") ∧
    (drainChangedNames (renameSlotElement 7 (some "a") (some "a")
      (addSlotElementByName (some "a") 7 init))).1 (some "a") = true :=
  C3_rename_transfers_bookkeeping (addSlotElementByName (some "a") 7 init) 7 (some "a") (some "b")
    (by decide) (by decide)


/-! ## Resolution of canonical elements -/

theorem m_slots_eq_some_lookup {sa : SlotAssignment} {n : AtomicString}
    (h : (sa.m_slots n).isSome = true) : sa.m_slots n = some (sa.lookup n) := by
  unfold lookup
  cases hs : sa.m_slots n with
  | none => simp [hs] at h
  | some slot => rfl

end SlotAssignment

end WebCore
